import Mathlib

/-!
Verification development for the Angular book demo application
(product catalog: `Product` model, `SortPipe`, `NumericDirective`,
`CopyrightDirective`, `ProductDetailComponent`, `ProductListComponent`).

The TypeScript sources are embedded shallowly:
* JS numbers occurring in the program (`id`, `price`) are modelled as `Int`
  (every number the program holds is an integer literal);
* JS strings are Lean `String`s; the JS `<` on strings (lexicographic by
  code unit) is modelled by Lean's lexicographic `<` on `String`, which
  agrees with it on all characters appearing in the program;
* `Record<number, string>` is a finite map, modelled as an association
  list `List (Nat × String)`;
* `null`/`undefined` values are `Option`; a JS expression that can throw
  at run time is modelled in `Except JsError`;
* `Array.prototype.sort` with a comparator is modelled by the stable
  `List.mergeSort` on the non-strict relation induced by the comparator
  (ECMAScript requires `sort` to produce a stable, comparator-sorted
  permutation whenever the comparator is consistent, which it is here);
  aliasing behaviour of `sort` (in-place mutation) is modelled separately
  by explicit store passing.
-/

/-- The `Product` interface from `product.ts`:
`id: number; title: string; price: number; categories: Record<number, string>`. -/
structure Product where
  id : Int
  title : String
  price : Int
  categories : List (Nat × String)
deriving Repr, DecidableEq

/-- Well-formedness of a `Product`: the structure type already forces the four
fields to be present with their declared types; the only residual condition is
that `categories` is a genuine finite map, i.e. its keys are distinct
(JS object keys are unique by construction). -/
def ProductWF (p : Product) : Prop :=
  (p.categories.map Prod.fst).Nodup

instance (p : Product) : Decidable (ProductWF p) := by
  unfold ProductWF; infer_instance

/-- The `products` array from `product-list.component.ts`. -/
def products : List Product :=
  [ { id := 1, title := "Keyboard", price := 100,
      categories := [(1, "Computing"), (2, "Peripherals")] },
    { id := 2, title := "Microphone", price := 35,
      categories := [(3, "Multimedia")] },
    { id := 3, title := "Web camera", price := 79,
      categories := [(1, "Computing"), (3, "Multimedia")] },
    { id := 4, title := "Tablet", price := 500,
      categories := [(4, "Entertainment")] } ]

/-- The type `keyof Product`: the four property names a consumer may pass to the pipe. -/
inductive SortKey where
  | id
  | title
  | price
  | categories
deriving Repr, DecidableEq

/-- The JS expression `a[args] < b[args]` from the comparator in `sort.pipe.ts`.
For `id` and `price` it is numeric `<`; for `title` it is lexicographic string
`<`. For `categories` both operands are plain objects: JS `<` first converts
each to a primitive, and both become the string `"[object Object]"`, so the
comparison is `false` for every pair of products. -/
def keyLt (k : SortKey) (a b : Product) : Bool :=
  match k with
  | .id => decide (a.id < b.id)
  | .title => decide (a.title < b.title)
  | .price => decide (a.price < b.price)
  | .categories => false

/-- The five-line three-way comparator passed to `value.sort` in
`sort.pipe.ts`: `-1` when `a[args] < b[args]`, `1` when `b[args] < a[args]`,
`0` otherwise. -/
def comparator (k : SortKey) (a b : Product) : Int :=
  if keyLt k a b then -1
  else if keyLt k b a then 1
  else 0

/-- The non-strict order induced by the comparator: `a` may be placed before
`b` exactly when the comparator does not demand the opposite order, i.e. when
`comparator k a b ≤ 0`. `Array.prototype.sort` arranges the array so that
consecutive elements satisfy this relation. -/
def sortLe (k : SortKey) (a b : Product) : Bool :=
  !(keyLt k b a)

namespace SortPipe

/-- The method `SortPipe.transform` from `sort.pipe.ts` (final version):
```
transform(value: Product[], args: keyof Product = 'title'): Product[] {
  if (value) {
    return value.sort((a, b) => {
      if (a[args] < b[args]) { return -1; }
      else if (b[args] < a[args]) { return 1; }
      return 0;
    });
  }
  return [];
}
```
A `null`/`undefined` `value` is `none` (an array, even empty, is always
truthy in JS, so `if (value)` distinguishes exactly null-ish inputs). -/
def transform (value : Option (List Product)) (args : SortKey) : List Product :=
  match value with
  | some v => v.mergeSort (sortLe args)
  | none => []

/-- The call with no pipe parameter: the default parameter value
`args: keyof Product = 'title'` is used. -/
def transformDefault (value : Option (List Product)) : List Product :=
  transform value SortKey.title

end SortPipe

/-- The class of JS run-time errors the embedded code can raise. The only one
reachable in this code base is `TypeError` (property access on `undefined`). -/
inductive JsError where
  | typeError
deriving Repr, DecidableEq

namespace NumericDirective

/-- The expression `event.key.charCodeAt(0)`: the UTF-16 code of the first character of the
key string, or `none` when the string is empty (JS returns `NaN` there; every
`NaN` comparison is `false`, which the callers below reproduce). -/
def charCodeAt0 (key : String) : Option Nat :=
  key.data.head?.map Char.toNat

/-- The outcome of one `keypress` event on the host `<input>` element:
the value written to the `currentClass` host binding, and whether
`event.preventDefault()` was called during the handler. -/
structure KeyPressOutcome where
  currentClass : String
  prevented : Bool
deriving Repr, DecidableEq

/-- The handler `NumericDirective.onKeyPress` from `numeric.directive.ts`:
```
@HostListener('keypress', ['$event']) onKeyPress(event: KeyboardEvent) {
  const charCode = event.key.charCodeAt(0);
  if (charCode > 31 && (charCode < 48 || charCode > 57)) {
    this.currentClass = 'invalid';
    event.preventDefault();
  } else {
    this.currentClass = 'valid';
  }
}
```
The handler overwrites `currentClass` unconditionally, so it is a function of
the key string alone. When `key` is empty, `charCode` is `NaN` and the test
`charCode > 31` is `false`, so the `else` branch runs. -/
def onKeyPress (key : String) : KeyPressOutcome :=
  match charCodeAt0 key with
  | some charCode =>
      if charCode > 31 && (charCode < 48 || charCode > 57) then
        { currentClass := "invalid", prevented := true }
      else
        { currentClass := "valid", prevented := false }
  | none => { currentClass := "valid", prevented := false }

/-- The handler `onKeyPress` never throws: `charCodeAt` is total (it returns `NaN` out of
range rather than throwing) and the branches only assign and call
`preventDefault`. -/
def onKeyPressRun (key : String) : Except JsError KeyPressOutcome :=
  Except.ok (onKeyPress key)

end NumericDirective

namespace ProductDetailComponent

/-- The `product` entry of the `SimpleChanges` record passed to
`ngOnChanges`. -/
structure SimpleChangeP where
  previousValue : Option Product
  currentValue : Option Product
  firstChange : Bool
deriving Repr, DecidableEq

/-- The getter `productTitle() { return this.product()!.title; }` —
`this.product()` reads the optional input signal (`undefined` until the
parent binds it); the `!` assertion is erased at run time, so when the input
is unset the member access `.title` on `undefined` throws a `TypeError`. -/
def productTitle (product : Option Product) : Except JsError String :=
  match product with
  | some p => Except.ok p.title
  | none => Except.error JsError.typeError

/-- The method `addToCart() { this.added.emit(this.product()!); }` — `emit` forwards its
argument to the subscribers and never throws, even when the erased `!` lets an
`undefined` value through; the outcome is the emitted value. -/
def addToCart (product : Option Product) : Except JsError (Option Product) :=
  Except.ok product

/-- The hook `ngOnChanges(changes)` reads `changes['product']` and calls
`.isFirstChange()` on it: a `TypeError` when the record has no `product`
entry (`none`), otherwise both branches only `console.log` and return. -/
def ngOnChanges (productChange : Option SimpleChangeP) : Except JsError Unit :=
  match productChange with
  | some _ => Except.ok ()
  | none => Except.error JsError.typeError

end ProductDetailComponent

/-- The state of the host DOM element a directive manipulates: its class list
and its text content. -/
structure ElementState where
  classes : List String
  textContent : String
deriving Repr, DecidableEq

namespace CopyrightDirective

/-- The constructor of `copyright.directive.ts`:
```
constructor(el: ElementRef) {
  const currentYear = new Date().getFullYear();
  const targetEl: HTMLElement = el.nativeElement;
  targetEl.classList.add('copyright');
  targetEl.textContent = `Copyright ©${currentYear} All Rights Reserved`;
}
```
The wall-clock year is an external input, passed explicitly. `classList.add`
is a set insertion: it does not duplicate an existing token. -/
def construct (currentYear : Int) (el : ElementState) : ElementState :=
  { classes :=
      if el.classes.contains "copyright" then el.classes
      else el.classes ++ ["copyright"],
    textContent := "Copyright ©" ++ toString currentYear ++ " All Rights Reserved" }

/-- The constructor never throws: every step is an infallible DOM write. -/
def constructRun (currentYear : Int) (el : ElementState) : Except JsError ElementState :=
  Except.ok (construct currentYear el)

end CopyrightDirective

/-- The state of `ProductListComponent`: the `products` array and the
`selectedProduct: Product | undefined` property. -/
structure ProductListComponent where
  products : List Product
  selectedProduct : Option Product
deriving Repr, DecidableEq

/-- The click binding `(click)="selectedProduct = product"` from
`product-list.component.html`: selecting a product stores it, touching
nothing else. -/
def selectProduct (st : ProductListComponent) (p : Product) : ProductListComponent :=
  { st with selectedProduct := some p }

namespace SortPipe

/-- The method `transform` never throws: `if (value)` guards the only dereference, the
comparator only reads properties of non-null objects, and `sort` itself is
infallible. -/
def transformRun (value : Option (List Product)) (args : SortKey) :
    Except JsError (List Product) :=
  Except.ok (transform value args)

/-- A store of JS arrays, addressed by reference. `value.sort(...)` mutates
the array behind the caller's reference and returns that same reference;
the `return []` branch allocates a fresh array instead. `transformRef` is
`transform` with this aliasing made explicit: the result is either the
input reference (`Sum.inl`) or a fresh array value (`Sum.inr`). -/
structure ArrayStore where
  arrs : List (List Product)
deriving Repr, DecidableEq

/-- The method `SortPipe.transform` over the array store: the non-null branch overwrites
the referenced cell with its sorted contents and returns the very same
reference; the null branch leaves the store untouched and returns a fresh
empty array. -/
def transformRef (s : ArrayStore) (value : Option Nat) (args : SortKey) :
    ArrayStore × (Nat ⊕ List Product) :=
  match value with
  | some r =>
      ({ arrs := s.arrs.set r ((s.arrs.getD r []).mergeSort (sortLe args)) },
       Sum.inl r)
  | none => (s, Sum.inr [])

end SortPipe

/-! ### Order-theoretic facts about the comparator -/

/-- Transitivity of the relation "not strictly above", over any linear
order. -/
theorem notLt_trans {α : Type} [LinearOrder α] {x y z : α}
    (h1 : ¬ y < x) (h2 : ¬ z < y) : ¬ z < x :=
  fun h => h1 (lt_of_le_of_lt (not_lt.mp h2) h)

/-- Totality of the relation "not strictly above", over any linear order. -/
theorem notLt_total {α : Type} [LinearOrder α] (x y : α) : ¬ y < x ∨ ¬ x < y := by
  by_cases h : x < y
  · exact Or.inl (lt_asymm h)
  · exact Or.inr h

/-- For every sort key, the order induced by the comparator is transitive. -/
theorem sortLe_trans (k : SortKey) : ∀ a b c : Product,
    sortLe k a b → sortLe k b c → sortLe k a c := by
  intro a b c h1 h2
  cases k
  case id =>
    simp only [sortLe, keyLt, Bool.not_eq_true', decide_eq_false_iff_not] at h1 h2 ⊢
    exact notLt_trans h1 h2
  case title =>
    simp only [sortLe, keyLt, Bool.not_eq_true', decide_eq_false_iff_not] at h1 h2 ⊢
    exact notLt_trans h1 h2
  case price =>
    simp only [sortLe, keyLt, Bool.not_eq_true', decide_eq_false_iff_not] at h1 h2 ⊢
    exact notLt_trans h1 h2
  case categories => rfl

/-- For every sort key, the order induced by the comparator is total. -/
theorem sortLe_total (k : SortKey) : ∀ a b : Product,
    sortLe k a b || sortLe k b a := by
  intro a b
  cases k
  case id =>
    simp only [sortLe, keyLt, Bool.or_eq_true, Bool.not_eq_true',
      decide_eq_false_iff_not]
    exact notLt_total a.id b.id
  case title =>
    simp only [sortLe, keyLt, Bool.or_eq_true, Bool.not_eq_true',
      decide_eq_false_iff_not]
    exact notLt_total a.title b.title
  case price =>
    simp only [sortLe, keyLt, Bool.or_eq_true, Bool.not_eq_true',
      decide_eq_false_iff_not]
    exact notLt_total a.price b.price
  case categories => rfl

/-- When the comparator does not demand the opposite order, its value is
nonpositive. -/
theorem comparator_nonpos_of_sortLe (k : SortKey) (a b : Product)
    (h : sortLe k a b = true) : comparator k a b ≤ 0 := by
  unfold sortLe at h
  rw [Bool.not_eq_true'] at h
  unfold comparator
  by_cases h1 : keyLt k a b
  · simp [h1]
  · simp [h1, h]

/-! ### The claims -/

/-- C1: for every non-null array of products and every sort key (with the key
defaulting to `title` when the consumer passes no pipe parameter),
`SortPipe.transform` returns a permutation of the input arranged in
non-decreasing order under the three-way comparator (`-1` when
`a[k] < b[k]`, `1` when `b[k] < a[k]`, `0` otherwise). -/
theorem sortPipe_transform_sorts (v : List Product) (k : SortKey) :
    (SortPipe.transform (some v) k).Perm v ∧
    (SortPipe.transform (some v) k).Pairwise (fun a b => comparator k a b ≤ 0) ∧
    SortPipe.transformDefault (some v) = SortPipe.transform (some v) SortKey.title := by
  refine ⟨List.mergeSort_perm v (sortLe k), ?_, rfl⟩
  have hs : (v.mergeSort (sortLe k)).Pairwise (fun a b => sortLe k a b) :=
    List.sorted_mergeSort (sortLe_trans k) (sortLe_total k) v
  exact hs.imp (comparator_nonpos_of_sortLe k _ _)

/-- C2: when the input value is null (or otherwise unset), `transform`
returns an empty array, with or without an explicit sort-key parameter. -/
theorem sortPipe_transform_null (k : SortKey) :
    SortPipe.transform none k = [] ∧ SortPipe.transformDefault none = [] :=
  ⟨rfl, rfl⟩

/-- C9: `SortPipe.transform` is idempotent: re-sorting an already sorted
array leaves it unchanged, element for element. -/
theorem sortPipe_transform_idempotent (v : List Product) (k : SortKey) :
    SortPipe.transform (some (SortPipe.transform (some v) k)) k =
      SortPipe.transform (some v) k := by
  show (v.mergeSort (sortLe k)).mergeSort (sortLe k) = v.mergeSort (sortLe k)
  exact List.mergeSort_of_sorted
    (List.sorted_mergeSort (sortLe_trans k) (sortLe_total k) v)

/-- C3, counterexample: the newline key has character code 10, which lies
outside the decimal-digit range 48 to 57, yet `onKeyPress` does not call
`preventDefault` on it — the code's test `charCode > 31` also lets every
control code through. -/
theorem numeric_filter_counterexample :
    NumericDirective.charCodeAt0 "\n" = some 10 ∧
    (10 < 48 ∨ 10 > 57) ∧
    (NumericDirective.onKeyPress "\n").prevented = false := by
  refine ⟨by decide, Or.inl (by decide), by decide⟩

/-- C3, amended: `onKeyPress` rejects the keystroke (calls
`event.preventDefault()`) exactly when the character code of the first
character of `event.key` is greater than 31 AND lies outside the
decimal-digit range 48 to 57; character codes up to 31 (control characters)
are never rejected. -/
theorem numeric_keystroke_filter (key : String) (c : Nat)
    (h : NumericDirective.charCodeAt0 key = some c) :
    (NumericDirective.onKeyPress key).prevented = true ↔
      (c > 31 ∧ (c < 48 ∨ c > 57)) := by
  unfold NumericDirective.onKeyPress
  rw [h]
  by_cases hc : c > 31 ∧ (c < 48 ∨ c > 57)
  · simp [hc]
  · simp [hc]

/-- Witness for C3's amended theorem at the concrete key `"a"`
(character code 97): the keystroke is rejected. -/
theorem numeric_keystroke_filter_witness :
    NumericDirective.charCodeAt0 "a" = some 97 ∧
    ((NumericDirective.onKeyPress "a").prevented = true ↔
      (97 > 31 ∧ (97 < 48 ∨ 97 > 57))) :=
  ⟨by decide, numeric_keystroke_filter "a" 97 (by decide)⟩

/-- Every run of `onKeyPress` ends in one of exactly two outcomes. -/
theorem onKeyPress_outcomes (key : String) :
    NumericDirective.onKeyPress key = ⟨"invalid", true⟩ ∨
    NumericDirective.onKeyPress key = ⟨"valid", false⟩ := by
  unfold NumericDirective.onKeyPress
  cases NumericDirective.charCodeAt0 key with
  | none => exact Or.inr rfl
  | some c =>
      rcases Bool.eq_false_or_eq_true
          (decide (c > 31) && (decide (c < 48) || decide (c > 57))) with hc | hc
      · left
        simp [hc]
      · right
        simp [hc]

/-- C8: after every keypress handled by the numeric directive, the
`currentClass` host binding is exactly `'valid'` or `'invalid'` (never its
initial empty string), and `preventDefault` is called during the handler if
and only if `currentClass` is set to `'invalid'`. -/
theorem numeric_currentClass_invariant (key : String) :
    ((NumericDirective.onKeyPress key).currentClass = "valid" ∨
     (NumericDirective.onKeyPress key).currentClass = "invalid") ∧
    ((NumericDirective.onKeyPress key).prevented = true ↔
     (NumericDirective.onKeyPress key).currentClass = "invalid") := by
  rcases onKeyPress_outcomes key with h | h <;> rw [h]
  · exact ⟨Or.inr rfl, by decide⟩
  · exact ⟨Or.inl rfl, by decide⟩

/-- C4, counterexample: when the `product` input has not been set, the
`productTitle` getter dereferences `undefined` (the `!` assertion is erased
at run time) and throws a `TypeError` — the code does raise an error at run
time, contrary to the claim. -/
theorem productTitle_throws_when_unset :
    ProductDetailComponent.productTitle none = Except.error JsError.typeError := rfl

/-- C4, amended: `SortPipe.transform`, `NumericDirective.onKeyPress`, the
copyright directive's constructor, and `addToCart` complete normally on every
input; `productTitle` completes normally whenever the `product` input is set,
and `ngOnChanges` completes normally whenever the changes record carries a
`product` entry — but `productTitle` throws a `TypeError` when the `product`
input has not been set, and `ngOnChanges` throws a `TypeError` when the
changes record has no `product` entry. -/
theorem runtime_error_boundary :
    (∀ p : Product,
        ProductDetailComponent.productTitle (some p) = Except.ok p.title) ∧
    (∀ product : Option Product,
        ProductDetailComponent.addToCart product = Except.ok product) ∧
    (∀ c : ProductDetailComponent.SimpleChangeP,
        ProductDetailComponent.ngOnChanges (some c) = Except.ok ()) ∧
    (∀ (v : Option (List Product)) (k : SortKey),
        SortPipe.transformRun v k = Except.ok (SortPipe.transform v k)) ∧
    (∀ key : String,
        NumericDirective.onKeyPressRun key =
          Except.ok (NumericDirective.onKeyPress key)) ∧
    (∀ (y : Int) (el : ElementState),
        CopyrightDirective.constructRun y el =
          Except.ok (CopyrightDirective.construct y el)) ∧
    ProductDetailComponent.productTitle none = Except.error JsError.typeError ∧
    ProductDetailComponent.ngOnChanges none = Except.error JsError.typeError :=
  ⟨fun _ => rfl, fun _ => rfl, fun _ => rfl, fun _ _ => rfl, fun _ => rfl,
   fun _ _ => rfl, rfl, rfl⟩

/-- C5: no operation modifies any field of a `Product`. The sort pipe returns
a permutation of the input, so the multiset of product values — each with its
`id`, `title`, `price`, and `categories` — is exactly the input's, only the
order changing; selecting a product stores the very value clicked and leaves
the `products` array untouched; and `addToCart` emits the stored product
value unchanged. -/
theorem product_fields_unmodified (v : List Product) (k : SortKey)
    (st : ProductListComponent) (p : Product) :
    (SortPipe.transform (some v) k).Perm v ∧
    (selectProduct st p).products = st.products ∧
    (selectProduct st p).selectedProduct = some p ∧
    ProductDetailComponent.addToCart (some p) = Except.ok (some p) :=
  ⟨List.mergeSort_perm v (sortLe k), rfl, rfl, rfl⟩

/-- C6: every product handled is a record of exactly the four typed fields
(enforced by the `Product` structure itself), and the residual
well-formedness condition — `categories` is a finite map with distinct
keys — is preserved by the sort pipe, by product selection, and by the
`added` output emission. -/
theorem productWF_preserved (v : List Product) (k : SortKey)
    (h : ∀ p ∈ v, ProductWF p) :
    (∀ p ∈ SortPipe.transform (some v) k, ProductWF p) ∧
    (∀ (st : ProductListComponent) (p : Product),
        (selectProduct st p).selectedProduct = some p) ∧
    (∀ p : Product,
        ProductDetailComponent.addToCart (some p) = Except.ok (some p)) := by
  refine ⟨?_, fun st p => rfl, fun p => rfl⟩
  intro p hp
  exact h p (List.mem_mergeSort.mp hp)

/-- Witness for C6 at the concrete `products` array of the book, sorted by
price: all four products are well-formed before and after. -/
theorem productWF_preserved_witness :
    (∀ p ∈ products, ProductWF p) ∧
    ((∀ p ∈ SortPipe.transform (some products) SortKey.price, ProductWF p) ∧
     (∀ (st : ProductListComponent) (p : Product),
        (selectProduct st p).selectedProduct = some p) ∧
     (∀ p : Product,
        ProductDetailComponent.addToCart (some p) = Except.ok (some p))) :=
  ⟨by decide, productWF_preserved products SortKey.price (by decide)⟩

/-- C7: the non-null branch of `transform` sorts in place: it returns the
very reference it was given (`Sum.inl r`, never a fresh copy), and as a side
effect the caller's array cell now holds a reordering of its previous
contents — exactly the value `transform` computes for it. -/
theorem sortPipe_transform_in_place (s : SortPipe.ArrayStore) (r : Nat) (k : SortKey) :
    (SortPipe.transformRef s (some r) k).2 = Sum.inl r ∧
    ((SortPipe.transformRef s (some r) k).1.arrs.getD r []).Perm
      (s.arrs.getD r []) ∧
    (SortPipe.transformRef s (some r) k).1.arrs.getD r [] =
      SortPipe.transform (some (s.arrs.getD r [])) k := by
  have hcell : (SortPipe.transformRef s (some r) k).1.arrs.getD r [] =
      SortPipe.transform (some (s.arrs.getD r [])) k := by
    show (s.arrs.set r ((s.arrs.getD r []).mergeSort (sortLe k))).getD r [] = _
    rw [List.getD_eq_getElem?_getD, List.getElem?_set_self']
    cases h : s.arrs[r]? with
    | none => simp [SortPipe.transform, List.getD_eq_getElem?_getD, h]
    | some old => simp [SortPipe.transform, List.getD_eq_getElem?_getD, h]
  refine ⟨rfl, ?_, hcell⟩
  rw [hcell]
  exact List.mergeSort_perm _ _
